import Mathlib

/-!
Verification of the dask-examples repository against its natural-language
specification.  The repository consists of example notebooks, two GitHub
Actions CI workflows, and a small shell startup script (`binder/start`).
This file gives a shallow embedding of those artifacts:

* the two CI workflow files (`.github/workflows/ci-repo2docker.yaml` and
  `.github/workflows/ci-update-dependencies.yaml`) as step lists, with the
  pytest invocation of the "Execute Notebooks" step kept as its argv;
* the `binder/start` shell script as a sequence of state transformers over
  a small file-system state, with the `sed s|PAT|REPL|g` substitution
  modelled as left-to-right global replacement on character lists;
* each notebook's code cells as a small Python statement/expression AST,
  transcribed cell by cell from the `.ipynb` sources;
* the resilience notebook's helper functions (`multiply_by_two`,
  `kill_a_worker`, the preemptible-worker filter) as Lean functions.
-/

/-! ## CI workflows -/

/-- One step of a GitHub Actions job: its display name, the action it
`uses` (if any), and the shell command it `run`s (if any). -/
structure WorkflowStep where
  stepName : String
  uses? : Option String
  run? : Option String

/-- A GitHub Actions workflow, flattened to the steps of its single job. -/
structure Workflow where
  workflowName : String
  steps : List WorkflowStep

/-- Argv of the pytest command of the "Execute Notebooks" step in
`ci-update-dependencies.yaml` (after shell word splitting of the
backslash-continued command). -/
def executeNotebooksArgv : List String :=
  ["pytest", "-vv", "-n=auto", "--forked", "--nbmake", "--overwrite",
   "--ignore", "machine-learning/torch-prediction.ipynb",
   "--ignore", "applications/json-data-on-the-web.ipynb"]

/-- The workflow `.github/workflows/ci-update-dependencies.yaml`
("Update Dependencies"): conda setup, dependency install, and the
"Execute Notebooks" pytest run. -/
def ciUpdateDependencies : Workflow :=
  { workflowName := "Update Dependencies",
    steps :=
      [ { stepName := "Checkout source", uses? := some "actions/checkout@v2", run? := none },
        { stepName := "Cache conda", uses? := some "actions/cache@v2", run? := none },
        { stepName := "Setup Conda Environment",
          uses? := some "conda-incubator/setup-miniconda@v2", run? := none },
        { stepName := "Install dependencies", uses? := none,
          run? := some "mamba install nbconvert nbformat jupyter_client ipykernel nbmake pytest-xdist" },
        { stepName := "Execute Notebooks", uses? := none,
          run? := some (String.intercalate " " executeNotebooksArgv) } ] }

/-- The workflow `.github/workflows/ci-repo2docker.yaml` ("repo2docker CI"):
python setup, repo2docker install, and the container-image build. -/
def ciRepo2docker : Workflow :=
  { workflowName := "repo2docker CI",
    steps :=
      [ { stepName := "Checkout", uses? := some "actions/checkout@v2", run? := none },
        { stepName := "Set up Python 3.9", uses? := some "actions/setup-python@v2", run? := none },
        { stepName := "Install repo2docker", uses? := none,
          run? := some "python -m pip install --upgrade pip; python -m pip install jupyter-repo2docker" },
        { stepName := "Build dask-examples Docker image", uses? := none,
          run? := some "jupyter-repo2docker --no-run --debug ." } ] }

/-- All CI workflows of the repository. -/
def ciWorkflows : List Workflow := [ciRepo2docker, ciUpdateDependencies]

/-- Substring test on strings, via infix test on the character lists. -/
def strContains (s pat : String) : Bool :=
  decide (pat.toList <:+: s.toList)

/-- Values of `--ignore` options in an argv list. -/
def ignoreValues : List String → List String
  | [] => []
  | "--ignore" :: v :: rest => v :: ignoreValues rest
  | _ :: rest => ignoreValues rest

/-- The notebooks the CI's pytest invocation is told to skip. -/
def ignoredNotebooks : List String := ignoreValues executeNotebooksArgv

/-- A workflow builds a container image iff one of its run steps invokes
the repo2docker build command. -/
def buildsContainerImage (w : Workflow) : Bool :=
  w.steps.any fun st =>
    match st.run? with
    | some c => strContains c "jupyter-repo2docker --no-run"
    | none => false

/-- A workflow executes the notebooks as tests iff one of its run steps
invokes pytest with the nbmake plugin. -/
def executesNotebooksAsTests (w : Workflow) : Bool :=
  w.steps.any fun st =>
    match st.run? with
    | some c => strContains c "--nbmake"
    | none => false

/-- The notebook files present in the repository corpus.  The final entry
is the machine-learning overview notebook whose repository path is not
recorded in the corpus; it is listed under a placeholder path. -/
def repoNotebookPaths : List String :=
  ["resilience.ipynb",
   "dataframes/01-data-access.ipynb",
   "machine-learning/scale-scikit-learn.ipynb",
   "machine-learning/glm.ipynb",
   "machine-learning/voting-classifier.ipynb",
   "applications/evolving-workflows.ipynb",
   "applications/json-data-on-the-web.ipynb",
   "unnamed/part_000"]

/-- Pytest with `--nbmake` collects every notebook under the rootdir except
the `--ignore`d paths. -/
def pytestCollect (available ignores : List String) : List String :=
  available.filter fun f => !(ignores.contains f)

/-- The notebooks the "Execute Notebooks" CI step actually runs. -/
def ciExecutedNotebooks : List String :=
  pytestCollect repoNotebookPaths ignoredNotebooks

/-! ## The `binder/start` script

The script runs, in order:
1. `sed -i -e "s|DASK_DASHBOARD_URL|${JUPYTERHUB_BASE_URL}user/${JUPYTERHUB_USER}/proxy/8787|g" binder/example.jupyterlab-workspace`
2. `mkdir -p ~/.jupyter/lab/workspaces/`
3. `mv binder/example.jupyterlab-workspace ~/.jupyter/lab/workspaces/default-37a8.jupyterlab-workspace`
4. `exec "$@"`
-/

/-- Global left-to-right replacement of `pat` by `repl`, as performed by
`sed s/pat/repl/g`: at each position, if the pattern starts here, emit the
replacement and continue after the matched occurrence (the replacement text
is not rescanned); otherwise copy one character. -/
def replaceAll (pat repl : List Char) : List Char → List Char
  | [] => []
  | c :: cs =>
    if pat ≠ [] ∧ pat.isPrefixOf (c :: cs) then
      repl ++ replaceAll pat repl ((c :: cs).drop pat.length)
    else
      c :: replaceAll pat repl cs
termination_by s => s.length
decreasing_by
  · rename_i h
    simp only [List.length_drop, List.length_cons]
    have hp : 1 ≤ pat.length := by
      cases hpat : pat with
      | nil => exact absurd hpat h.1
      | cons a l => simp
    omega
  · simp

/-- The placeholder the startup script substitutes. -/
def dashPat : List Char := "DASK_DASHBOARD_URL".toList

/-- Environment variables read by the startup script. -/
structure StartEnv where
  jupyterhubBaseURL : String
  jupyterhubUser : String

/-- The URL substituted for the placeholder:
`${JUPYTERHUB_BASE_URL}user/${JUPYTERHUB_USER}/proxy/8787`. -/
def dashboardProxyURL (env : StartEnv) : String :=
  env.jupyterhubBaseURL ++ "user/" ++ env.jupyterhubUser ++ "/proxy/8787"

/-- File-system state the startup script manipulates: the workspace layout
file shipped in `binder/`, the Jupyter workspaces directory and its default
workspace file, and the command finally exec'd. -/
structure StartState where
  binderWorkspaceFile : Option (List Char)
  workspacesDirExists : Bool
  defaultWorkspaceFile : Option (List Char)
  launchedCommand : Option (List String)

/-- Step 1: in-place sed substitution on `binder/example.jupyterlab-workspace`. -/
def sedStep (env : StartEnv) (s : StartState) : StartState :=
  { s with binderWorkspaceFile :=
      s.binderWorkspaceFile.map (replaceAll dashPat (dashboardProxyURL env).toList) }

/-- Step 2: `mkdir -p ~/.jupyter/lab/workspaces/`. -/
def mkdirStep (s : StartState) : StartState :=
  { s with workspacesDirExists := true }

/-- Step 3: move the workspace file into the Jupyter workspaces directory. -/
def mvStep (s : StartState) : StartState :=
  { s with binderWorkspaceFile := none,
           defaultWorkspaceFile := s.binderWorkspaceFile }

/-- Step 4: `exec "$@"` launches the notebook-server command. -/
def execStep (cmd : List String) (s : StartState) : StartState :=
  { s with launchedCommand := some cmd }

/-- The state just before `exec "$@"` runs: steps 1-3 applied in script order. -/
def preExecState (env : StartEnv) (s0 : StartState) : StartState :=
  mvStep (mkdirStep (sedStep env s0))

/-- The whole script: steps 1-4 in order. -/
def runStart (env : StartEnv) (cmd : List String) (s0 : StartState) : StartState :=
  execStep cmd (preExecState env s0)

/-- Initial state: the workspace file sits in `binder/` with the given
content, nothing moved, nothing launched. -/
def initialStartState (content : List Char) : StartState :=
  { binderWorkspaceFile := some content,
    workspacesDirExists := false,
    defaultWorkspaceFile := none,
    launchedCommand := none }

/-- A pattern is border-free when no proper nonempty prefix of it is also a
suffix; `decide` establishes this for the concrete placeholder. -/
def BorderFree (pat : List Char) : Prop :=
  ∀ k < pat.length, 0 < k → pat.take k ≠ pat.drop (pat.length - k)

/-! ## Python AST for the notebook code cells

Each notebook's code cells are transcribed, in cell order, into a small
statement/expression AST.  Function names of calls are kept as the dotted
names written in the source; argument expressions that no claim inspects
are kept as `other` nodes carrying a description. -/

/-- Python expressions, as far as the claims need to see them. -/
inductive PyExpr where
  | name (s : String)
  | num (n : Int)
  | str (s : String)
  | call (fn : String) (args : List PyExpr)
  | methodCall (recv : PyExpr) (method : String) (args : List PyExpr)
  | awaitE (e : PyExpr)
  | listLit (es : List PyExpr)
  | dictLit (entries : List (String × PyExpr))
  | comp (body : PyExpr) (var : String) (iter : PyExpr)
  | binop (op : String) (a b : PyExpr)
  | other (desc : String)

/-- Python statements: imports, assignments, expression statements,
function definitions (plain and async), the structured control-flow
statements, returns, and IPython magics / shell escapes. -/
inductive PyStmt where
  | imprt (module : String) (alias? : Option String)
  | importFrom (module : String) (names : List String)
  | assign (targets : List String) (value : PyExpr)
  | exprStmt (e : PyExpr)
  | defFun (fname : String) (params : List String) (body : List PyStmt)
  | asyncDefFun (fname : String) (params : List String) (body : List PyStmt)
  | forLoop (var : String) (iter : PyExpr) (body : List PyStmt)
  | whileLoop (cond : PyExpr) (body : List PyStmt)
  | ifStmt (cond : PyExpr) (thn els : List PyStmt)
  | withStmt (ctx : PyExpr) (body : List PyStmt)
  | ret (e : PyExpr)
  | magic (text : String)

/-- A notebook: its repository path and the statements of its code cells,
concatenated in cell order. -/
structure Notebook where
  path : String
  code : List PyStmt

/-- Code cells of `resilience.ipynb`. -/
def resilienceNotebook : Notebook :=
  { path := "resilience.ipynb",
    code :=
      [ .imprt "dask" none,
        .exprStmt (.call "dask.config.set"
          [.dictLit [("distributed.scheduler.allowed-failures", .num 100)]]),
        .importFrom "dask.distributed" ["Client", "LocalCluster"],
        .importFrom "dask" ["bag"],
        .imprt "os" none,
        .imprt "random" none,
        .importFrom "time" ["sleep"],
        .assign ["cluster"] (.call "LocalCluster"
          [.other "threads_per_worker=1", .other "n_workers=4", .other "memory_limit=400e6"]),
        .assign ["client"] (.call "Client" [.name "cluster"]),
        .exprStmt (.name "client"),
        .defFun "multiply_by_two" ["x"]
          [ .exprStmt (.call "sleep" [.other "0.02"]),
            .ret (.binop "*" (.num 2) (.name "x")) ],
        .assign ["N"] (.num 400),
        .assign ["x"] (.call "db.from_sequence"
          [.call "range" [.name "N"], .other "npartitions=N // 2"]),
        .assign ["mults"] (.call "x.map" [.name "multiply_by_two"]),
        .assign ["summed"] (.call "mults.sum" []),
        .assign ["all_current_workers"]
          (.comp (.name "w.pid") "w" (.call "cluster.scheduler.workers.values" [])),
        .assign ["non_preemptible_workers"] (.other "all_current_workers[:2]"),
        .defFun "kill_a_worker" []
          [ .assign ["preemptible_workers"]
              (.comp (.name "w.pid") "w"
                (.other "cluster.scheduler.workers.values() if w.pid not in non_preemptible_workers")),
            .ifStmt (.name "preemptible_workers")
              [ .exprStmt (.call "os.kill"
                  [.call "random.choice" [.name "preemptible_workers"], .num 15]) ]
              [] ],
        .assign ["summed"] (.call "client.compute" [.name "summed"]),
        .whileLoop (.other "not summed.done()")
          [ .exprStmt (.call "kill_a_worker" []),
            .exprStmt (.call "sleep" [.other "3.0"]) ],
        .exprStmt (.call "print" [.other "f-string reporting summed.result() against N * (N-1)"]) ] }

/-- Code cells of `dataframes/01-data-access.ipynb`. -/
def dataAccessNotebook : Notebook :=
  { path := "dataframes/01-data-access.ipynb",
    code :=
      [ .importFrom "IPython.display" ["YouTubeVideo"],
        .exprStmt (.call "YouTubeVideo" [.str "0eEsIA0O1iE"]),
        .importFrom "dask.distributed" ["Client"],
        .assign ["client"] (.call "Client"
          [.other "n_workers=1", .other "threads_per_worker=4",
           .other "processes=True", .other "memory_limit=2GB"]),
        .exprStmt (.name "client"),
        .imprt "dask" none,
        .assign ["df"] (.call "dask.datasets.timeseries" []),
        .exprStmt (.name "df"),
        .imprt "os" none,
        .imprt "datetime" none,
        .ifStmt (.other "not os.path.exists(data)")
          [ .exprStmt (.call "os.mkdir" [.str "data"]) ] [],
        .defFun "name" ["i"]
          [ .ret (.call "str" [.other "datetime.date(2000, 1, 1) + i * datetime.timedelta(days=1)"]) ],
        .exprStmt (.call "df.to_csv" [.str "data/*.csv", .other "name_function=name"]),
        .magic "!ls data/*.csv | head",
        .magic "!head data/2000-01-01.csv",
        .magic "!head data/2000-01-30.csv",
        .imprt "pandas" (some "pd"),
        .assign ["df"] (.call "pd.read_csv" [.str "data/2000-01-01.csv"]),
        .exprStmt (.call "df.head" []),
        .imprt "dask.dataframe" (some "dd"),
        .assign ["df"] (.call "dd.read_csv" [.str "data/2000-*-*.csv"]),
        .exprStmt (.name "df"),
        .exprStmt (.call "df.head" []),
        .magic "pd.read_csv?",
        .magic "dd.read_csv?",
        .assign ["df"] (.call "dd.read_csv"
          [.str "data/2000-*-*.csv", .other "parse_dates=[timestamp]"]),
        .exprStmt (.name "df"),
        .magic "%time",
        .exprStmt (.methodCall (.call "df.groupby" [.str "name"]) "x.mean().compute" []),
        .exprStmt (.call "df.to_parquet" [.str "data/2000-01.parquet", .other "engine=pyarrow"]),
        .magic "!ls data/2000-01.parquet/",
        .assign ["df"] (.call "dd.read_parquet" [.str "data/2000-01.parquet", .other "engine=pyarrow"]),
        .exprStmt (.name "df"),
        .magic "%time",
        .exprStmt (.methodCall (.call "df.groupby" [.str "name"]) "x.mean().compute" []),
        .magic "%%time",
        .assign ["df"] (.call "dd.read_parquet"
          [.str "data/2000-01.parquet", .other "columns=[name, x]", .other "engine=pyarrow"]),
        .exprStmt (.methodCall (.call "df.groupby" [.str "name"]) "x.mean().compute" []) ] }

/-- Code cells of `machine-learning/scale-scikit-learn.ipynb`. -/
def scaleScikitLearnNotebook : Notebook :=
  { path := "machine-learning/scale-scikit-learn.ipynb",
    code :=
      [ .importFrom "IPython.display" ["YouTubeVideo"],
        .exprStmt (.call "YouTubeVideo" [.str "5Zf6DQaf7jk"]),
        .importFrom "dask.distributed" ["Client", "progress"],
        .assign ["client"] (.call "Client"
          [.other "n_workers=4", .other "threads_per_worker=1", .other "memory_limit=2GB"]),
        .exprStmt (.name "client"),
        .importFrom "pprint" ["pprint"],
        .importFrom "time" ["time"],
        .imprt "logging" none,
        .importFrom "sklearn.datasets" ["fetch_20newsgroups"],
        .importFrom "sklearn.feature_extraction.text" ["HashingVectorizer"],
        .importFrom "sklearn.feature_extraction.text" ["TfidfTransformer"],
        .importFrom "sklearn.linear_model" ["SGDClassifier"],
        .importFrom "sklearn.model_selection" ["GridSearchCV"],
        .importFrom "sklearn.pipeline" ["Pipeline"],
        .assign ["categories"] (.listLit [.str "alt.atheism", .str "talk.religion.misc"]),
        .exprStmt (.call "print" [.str "Loading 20 newsgroups dataset for categories:"]),
        .exprStmt (.call "print" [.name "categories"]),
        .assign ["data"] (.call "fetch_20newsgroups"
          [.other "subset=train", .other "categories=categories"]),
        .exprStmt (.call "print" [.other "document count"]),
        .exprStmt (.call "print" [.other "category count"]),
        .exprStmt (.call "print" []),
        .assign ["pipeline"] (.call "Pipeline"
          [.listLit [.other "(vect, HashingVectorizer())",
                     .other "(tfidf, TfidfTransformer())",
                     .other "(clf, SGDClassifier(max_iter=1000))"]]),
        .assign ["parameters"] (.other "dict of tfidf and clf hyper-parameter candidates"),
        .assign ["grid_search"] (.call "GridSearchCV"
          [.name "pipeline", .name "parameters", .other "n_jobs=-1",
           .other "verbose=1", .other "cv=3", .other "refit=False"]),
        .imprt "joblib" none,
        .withStmt (.call "joblib.parallel_backend" [.str "dask"])
          [ .exprStmt (.call "grid_search.fit" [.name "data.data", .name "data.target"]) ],
        .importFrom "sklearn.datasets" ["load_digits"],
        .importFrom "sklearn.svm" ["SVC"],
        .importFrom "dask_ml.wrappers" ["ParallelPostFit"],
        .assign ["X", "y"] (.call "load_digits" [.other "return_X_y=True"]),
        .exprStmt (.name "X.shape"),
        .assign ["svc"] (.call "ParallelPostFit"
          [.call "SVC" [.other "random_state=0", .other "gamma=scale"]]),
        .assign ["param_grid"] (.other "dict mapping estimator__C to [0.01, 1.0, 10]"),
        .assign ["grid_search"] (.call "GridSearchCV"
          [.name "svc", .name "param_grid", .other "cv=3"]),
        .exprStmt (.call "grid_search.fit" [.name "X", .name "y"]),
        .imprt "dask.array" (some "da"),
        .assign ["big_X"] (.call "da.concatenate"
          [.comp (.call "da.from_array" [.name "X", .other "chunks=X.shape"]) "_"
            (.call "range" [.num 10])]),
        .exprStmt (.name "big_X"),
        .assign ["predicted"] (.call "grid_search.predict" [.name "big_X"]),
        .exprStmt (.name "predicted") ] }

/-- Code cells of `machine-learning/glm.ipynb`. -/
def glmNotebook : Notebook :=
  { path := "machine-learning/glm.ipynb",
    code :=
      [ .importFrom "dask.distributed" ["Client", "progress"],
        .assign ["client"] (.call "Client"
          [.other "processes=False", .other "threads_per_worker=4",
           .other "n_workers=1", .other "memory_limit=2GB"]),
        .exprStmt (.name "client"),
        .importFrom "dask_glm.datasets" ["make_regression"],
        .assign ["X", "y"] (.call "make_regression"
          [.other "n_samples=200000", .other "n_features=100",
           .other "n_informative=5", .other "chunksize=10000"]),
        .exprStmt (.name "X"),
        .imprt "dask" none,
        .assign ["X", "y"] (.call "dask.persist" [.name "X", .name "y"]),
        .imprt "dask_glm.algorithms" none,
        .assign ["b"] (.call "dask_glm.algorithms.admm"
          [.name "X", .name "y", .other "max_iter=5"]),
        .assign ["b"] (.call "dask_glm.algorithms.proximal_grad"
          [.name "X", .name "y", .other "max_iter=5"]),
        .imprt "dask_glm.families" none,
        .imprt "dask_glm.regularizers" none,
        .assign ["family"] (.call "dask_glm.families.Poisson" []),
        .assign ["regularizer"] (.call "dask_glm.regularizers.ElasticNet" []),
        .assign ["b"] (.call "dask_glm.algorithms.proximal_grad"
          [.name "X", .name "y", .other "max_iter=5",
           .other "family=family", .other "regularizer=regularizer"]),
        .magic "dask_glm.families.Poisson??",
        .magic "dask_glm.regularizers.ElasticNet??" ] }

/-- Code cells of `machine-learning/voting-classifier.ipynb`. -/
def votingClassifierNotebook : Notebook :=
  { path := "machine-learning/voting-classifier.ipynb",
    code :=
      [ .importFrom "sklearn.ensemble" ["VotingClassifier"],
        .importFrom "sklearn.linear_model" ["SGDClassifier"],
        .importFrom "sklearn.linear_model" ["LogisticRegression"],
        .importFrom "sklearn.svm" ["SVC"],
        .imprt "sklearn.datasets" none,
        .assign ["X", "y"] (.call "sklearn.datasets.make_classification"
          [.other "n_samples=1_000", .other "n_features=20"]),
        .assign ["classifiers"]
          (.listLit [.other "(sgd, SGDClassifier(max_iter=1000))",
                     .other "(logisticregression, LogisticRegression())",
                     .other "(svc, SVC(gamma=auto))"]),
        .assign ["clf"] (.call "VotingClassifier" [.name "classifiers", .other "n_jobs=-1"]),
        .magic "%time",
        .exprStmt (.call "clf.fit" [.name "X", .name "y"]),
        .imprt "joblib" none,
        .importFrom "distributed" ["Client"],
        .assign ["client"] (.call "Client" []),
        .exprStmt (.name "client"),
        .magic "%%time",
        .withStmt (.call "joblib.parallel_backend" [.str "dask"])
          [ .exprStmt (.call "clf.fit" [.name "X", .name "y"]) ],
        .exprStmt (.call "print" [.name "clf"]) ] }

/-- Code cells of `applications/evolving-workflows.ipynb`. -/
def evolvingWorkflowsNotebook : Notebook :=
  { path := "applications/evolving-workflows.ipynb",
    code :=
      [ .assign ["filenames"]
          (.comp (.call "format-template.format" [.name "i"]) "i" (.call "range" [.num 10])),
        .exprStmt (.other "filenames[:3]"),
        .imprt "random" none,
        .imprt "time" none,
        .defFun "parse_file" ["fn"]
          [ .exprStmt (.call "time.sleep" [.call "random.random" []]),
            .ret (.comp (.call "random.random" []) "_"
              (.call "range" [.call "random.randint" [.num 1, .num 10]])) ],
        .defFun "process_item" ["x"]
          [ .exprStmt (.call "time.sleep" [.binop "/" (.call "random.random" []) (.num 4)]),
            .ret (.binop "+" (.name "x") (.num 1)) ],
        .magic "%%time",
        .assign ["results"] (.listLit []),
        .forLoop "fn" (.name "filenames")
          [ .assign ["L"] (.call "parse_file" [.name "fn"]),
            .forLoop "x" (.name "L")
              [ .assign ["out"] (.call "process_item" [.name "x"]),
                .exprStmt (.call "results.append" [.name "out"]) ] ],
        .importFrom "dask.distributed" ["Client"],
        .assign ["client"] (.call "Client"
          [.other "processes=False", .other "n_workers=1", .other "threads_per_worker=6"]),
        .exprStmt (.name "client"),
        .magic "%%time",
        .importFrom "dask.distributed" ["as_completed"],
        .imprt "operator" none,
        .assign ["lists"] (.call "client.map"
          [.name "parse_file", .name "filenames", .other "pure=False"]),
        .assign ["lengths"] (.call "client.map" [.name "len", .name "lists"]),
        .assign ["mapping"] (.call "dict" [.call "zip" [.name "lengths", .name "lists"]]),
        .assign ["futures"] (.listLit []),
        .forLoop "future" (.call "as_completed" [.name "lengths"])
          [ .assign ["n"] (.call "future.result" []),
            .assign ["L"] (.other "mapping[future]"),
            .forLoop "i" (.call "range" [.name "n"])
              [ .assign ["new"] (.call "client.submit"
                  [.name "operator.getitem", .name "L", .name "i", .other "priority=1"]),
                .assign ["new"] (.call "client.submit"
                  [.name "process_item", .name "new", .other "priority=1"]),
                .exprStmt (.call "futures.append" [.name "new"]) ] ],
        .exprStmt (.call "client.gather" [.name "futures"]),
        .imprt "asyncio" none,
        .asyncDefFun "f" ["fn"]
          [ .assign ["future"] (.call "client.submit"
              [.name "parse_file", .name "fn", .other "pure=False"]),
            .assign ["length_future"] (.call "client.submit" [.name "len", .name "future"]),
            .assign ["length"] (.awaitE (.name "length_future")),
            .assign ["futures"]
              (.comp (.call "client.submit"
                  [.name "operator.getitem", .name "future", .name "i", .other "priority=10"])
                "i" (.call "range" [.name "length"])),
            .assign ["futures"] (.call "client.map"
              [.name "process_item", .name "futures", .other "priority=10"]),
            .ret (.name "futures") ],
        .asyncDefFun "run_all" ["filenames"]
          [ .assign ["list_of_list_of_futures"]
              (.awaitE (.call "asyncio.gather"
                [.comp (.call "f" [.name "fn"]) "fn" (.name "filenames")])),
            .assign ["futures"] (.call "sum" [.name "list_of_list_of_futures", .listLit []]),
            .ret (.awaitE (.call "client.gather" [.name "futures"])) ],
        .exprStmt (.call "client.sync" [.name "run_all", .name "filenames"]),
        .magic "%%time",
        .importFrom "dask.distributed" ["get_client", "secede", "rejoin"],
        .defFun "f" ["fn"]
          [ .assign ["L"] (.call "parse_file" [.name "fn"]),
            .assign ["client"] (.call "get_client" []),
            .assign ["futures"] (.call "client.map"
              [.name "process_item", .name "L", .other "priority=10"]),
            .exprStmt (.call "secede" []),
            .assign ["results"] (.call "client.gather" [.name "futures"]),
            .exprStmt (.call "rejoin" []),
            .ret (.name "results") ],
        .assign ["futures"] (.call "client.map"
          [.name "f", .name "filenames", .other "pure=False"]),
        .assign ["results"] (.call "client.gather" [.name "futures"]) ] }

/-- Code cells of `applications/json-data-on-the-web.ipynb`. -/
def jsonDataNotebook : Notebook :=
  { path := "applications/json-data-on-the-web.ipynb",
    code :=
      [ .imprt "dask.bag" (some "db"),
        .exprStmt (.methodCall
          (.call "db.read_text"
            [.str "https://archive.analytics.mybinder.org/events-2018-11-03.jsonl"])
          "take" [.num 3]),
        .importFrom "dask.distributed" ["Client", "progress"],
        .assign ["client"] (.call "Client"
          [.other "threads_per_worker=1", .other "n_workers=4", .other "memory_limit=2GB"]),
        .exprStmt (.name "client"),
        .imprt "dask.bag" (some "db"),
        .imprt "json" none,
        .exprStmt (.methodCall
          (.methodCall (.call "db.read_text"
            [.str "https://archive.analytics.mybinder.org/index.jsonl"])
            "map" [.name "json.loads"])
          "compute" []),
        .assign ["filenames"] (.methodCall
          (.methodCall (.methodCall (.call "db.read_text"
            [.str "https://archive.analytics.mybinder.org/index.jsonl"])
            "map" [.name "json.loads"])
            "pluck" [.str "name"])
          "compute" []),
        .assign ["filenames"]
          (.comp (.binop "+" (.str "https://archive.analytics.mybinder.org/") (.name "fn"))
            "fn" (.name "filenames")),
        .exprStmt (.other "filenames[:5]"),
        .assign ["events"] (.methodCall (.call "db.read_text" [.name "filenames"])
          "map" [.name "json.loads"]),
        .exprStmt (.call "events.take" [.num 2]),
        .exprStmt (.methodCall (.methodCall (.call "events.pluck" [.str "spec"])
          "frequencies" [.other "sort=True"]) "take" [.num 20]),
        .assign ["df"] (.call "events.to_dataframe" []),
        .exprStmt (.call "df.head" []),
        .exprStmt (.methodCall
          (.methodCall (.call "df.spec.value_counts.nlargest" [.num 20]) "to_frame" [])
          "compute" []),
        .assign ["df"] (.call "df.persist" []),
        .imprt "urllib" none,
        .exprStmt (.methodCall (.call "df.provider.value_counts" []) "compute" []),
        .exprStmt (.methodCall
          (.methodCall (.methodCall
            (.methodCall (.other "df[df.provider == GitLab].spec")
              "map" [.name "urllib.parse.unquote", .other "meta=(spec, object)"])
            "value_counts" []) "to_frame" []) "compute" []),
        .exprStmt (.methodCall
          (.methodCall (.methodCall
            (.methodCall (.other "df[df.provider == Git].spec")
              "apply" [.name "urllib.parse.unquote", .other "meta=(spec, object)"])
            "value_counts" []) "to_frame" []) "compute" []) ] }

/-- Code cells of the machine-learning overview notebook (the corpus file
with unrecorded path, titled "Dask for Machine Learning"). -/
def mlOverviewNotebook : Notebook :=
  { path := "unnamed/part_000",
    code :=
      [ .importFrom "dask.distributed" ["Client", "progress"],
        .assign ["client"] (.call "Client"
          [.other "processes=False", .other "threads_per_worker=4",
           .other "n_workers=1", .other "memory_limit=2GB"]),
        .exprStmt (.name "client"),
        .importFrom "sklearn.datasets" ["make_classification"],
        .importFrom "sklearn.svm" ["SVC"],
        .importFrom "sklearn.model_selection" ["GridSearchCV"],
        .imprt "pandas" (some "pd"),
        .assign ["X", "y"] (.call "make_classification"
          [.other "n_samples=1000", .other "random_state=0"]),
        .exprStmt (.other "X[:5]"),
        .assign ["param_grid"] (.dictLit
          [("C", .listLit [.other "0.001", .other "0.01", .other "0.1", .other "0.5",
                           .other "1.0", .other "2.0", .other "5.0", .other "10.0"]),
           ("kernel", .listLit [.str "rbf", .str "poly", .str "sigmoid"]),
           ("shrinking", .listLit [.other "True", .other "False"])]),
        .assign ["grid_search"] (.call "GridSearchCV"
          [.call "SVC" [.other "gamma=auto", .other "random_state=0", .other "probability=True"],
           .other "param_grid=param_grid", .other "return_train_score=False",
           .other "cv=3", .other "n_jobs=-1"]),
        .imprt "joblib" none,
        .withStmt (.call "joblib.parallel_backend" [.str "dask"])
          [ .exprStmt (.call "grid_search.fit" [.name "X", .name "y"]) ],
        .exprStmt (.methodCall (.call "pd.DataFrame" [.name "grid_search.cv_results_"]) "head" []),
        .exprStmt (.other "grid_search.predict(X)[:5]"),
        .exprStmt (.call "grid_search.score" [.name "X", .name "y"]),
        .magic "%matplotlib inline",
        .imprt "dask_ml.datasets" none,
        .imprt "dask_ml.cluster" none,
        .imprt "matplotlib.pyplot" (some "plt"),
        .assign ["X", "y"] (.call "dask_ml.datasets.make_blobs"
          [.other "n_samples=10000000", .other "chunks=1000000",
           .other "random_state=0", .other "centers=3"]),
        .assign ["X"] (.call "X.persist" []),
        .exprStmt (.name "X"),
        .assign ["km"] (.call "dask_ml.cluster.KMeans"
          [.other "n_clusters=3", .other "init_max_iter=2", .other "oversampling_factor=10"]),
        .exprStmt (.call "km.fit" [.name "X"]),
        .assign ["fig", "ax"] (.call "plt.subplots" []),
        .exprStmt (.call "ax.scatter"
          [.other "X[::10000, 0]", .other "X[::10000, 1]", .other "marker=.",
           .other "c=km.labels_[::10000]", .other "cmap=viridis", .other "alpha=0.25"]) ] }

/-- All notebooks of the corpus, in the order of `repoNotebookPaths`. -/
def repoNotebooks : List Notebook :=
  [resilienceNotebook, dataAccessNotebook, scaleScikitLearnNotebook, glmNotebook,
   votingClassifierNotebook, evolvingWorkflowsNotebook, jsonDataNotebook, mlOverviewNotebook]

/-! ## Predicates on notebook code -/

/-- Fuel bound for structural recursion over the (shallowly nested)
statement ASTs; every notebook nests statements fewer than 12 deep. -/
def astFuel : Nat := 12

/-- First dotted component of a function name as written in the source
(`dask.config.set` has root `dask`). -/
def rootOf (fn : String) : String :=
  String.mk (fn.toList.takeWhile fun c => c != Char.ofNat 46)

/-- A statement is looping/branching control flow, or contains some in a
nested body: `for`, `while` and `if` statements count; imports,
assignments, calls, `with` blocks and straight-line function bodies do
not. -/
def stmtHasControlFlowF : Nat → PyStmt → Bool
  | 0, _ => true
  | fuel+1, s =>
    match s with
    | .defFun _ _ body => body.any (stmtHasControlFlowF fuel)
    | .asyncDefFun _ _ body => body.any (stmtHasControlFlowF fuel)
    | .forLoop _ _ _ => true
    | .whileLoop _ _ => true
    | .ifStmt _ _ _ => true
    | .withStmt _ body => body.any (stmtHasControlFlowF fuel)
    | _ => false

/-- A notebook contains original looping or branching control flow. -/
def notebookHasControlFlow (nb : Notebook) : Bool :=
  nb.code.any (stmtHasControlFlowF astFuel)

/-- A statement defines an async function, or contains such a definition
in a nested body. -/
def stmtDefinesAsyncF : Nat → PyStmt → Bool
  | 0, _ => true
  | fuel+1, s =>
    match s with
    | .asyncDefFun _ _ _ => true
    | .defFun _ _ body => body.any (stmtDefinesAsyncF fuel)
    | .forLoop _ _ body => body.any (stmtDefinesAsyncF fuel)
    | .whileLoop _ body => body.any (stmtDefinesAsyncF fuel)
    | .ifStmt _ thn els => thn.any (stmtDefinesAsyncF fuel) || els.any (stmtDefinesAsyncF fuel)
    | .withStmt _ body => body.any (stmtDefinesAsyncF fuel)
    | _ => false

/-- A notebook defines coroutine-based control flow of its own. -/
def notebookDefinesAsync (nb : Notebook) : Bool :=
  nb.code.any (stmtDefinesAsyncF astFuel)

/-- Module roots under which the demonstrated framework's API is reached
in these notebooks: the `dask` package itself and the aliases/subpackages
the notebooks import it under (`import dask.bag as db`,
`import dask.dataframe as dd`, `import dask.array as da`, `dask_glm`,
`dask_ml`). -/
def frameworkModuleRoots : List String :=
  ["dask", "db", "dd", "da", "dask_glm", "dask_ml"]

/-- A call into the framework's demonstrated (data/computation) API: a
dotted name rooted at a framework module.  `dask.config.*` calls are
configuration, not demonstrated operations, and are excluded. -/
def isFrameworkOpName (fn : String) : Bool :=
  frameworkModuleRoots.contains (rootOf fn)
    && !("dask.config".toList.isPrefixOf fn.toList)

/-- An expression contains a call into the framework's demonstrated API. -/
def exprHasFrameworkOpF : Nat → PyExpr → Bool
  | 0, _ => true
  | fuel+1, e =>
    match e with
    | .name _ => false
    | .num _ => false
    | .str _ => false
    | .call fn args => isFrameworkOpName fn || args.any (exprHasFrameworkOpF fuel)
    | .methodCall recv _ args =>
        exprHasFrameworkOpF fuel recv || args.any (exprHasFrameworkOpF fuel)
    | .awaitE e' => exprHasFrameworkOpF fuel e'
    | .listLit es => es.any (exprHasFrameworkOpF fuel)
    | .dictLit entries => entries.any fun p => exprHasFrameworkOpF fuel p.2
    | .comp body _ iter => exprHasFrameworkOpF fuel body || exprHasFrameworkOpF fuel iter
    | .binop _ a b => exprHasFrameworkOpF fuel a || exprHasFrameworkOpF fuel b
    | .other _ => false

/-- A statement contains a call into the framework's demonstrated API
(also inside nested bodies). -/
def stmtHasFrameworkOpF : Nat → PyStmt → Bool
  | 0, _ => true
  | fuel+1, s =>
    match s with
    | .imprt _ _ => false
    | .importFrom _ _ => false
    | .assign _ v => exprHasFrameworkOpF fuel v
    | .exprStmt e => exprHasFrameworkOpF fuel e
    | .defFun _ _ body => body.any (stmtHasFrameworkOpF fuel)
    | .asyncDefFun _ _ body => body.any (stmtHasFrameworkOpF fuel)
    | .forLoop _ iter body =>
        exprHasFrameworkOpF fuel iter || body.any (stmtHasFrameworkOpF fuel)
    | .whileLoop cond body =>
        exprHasFrameworkOpF fuel cond || body.any (stmtHasFrameworkOpF fuel)
    | .ifStmt cond thn els =>
        exprHasFrameworkOpF fuel cond || thn.any (stmtHasFrameworkOpF fuel)
          || els.any (stmtHasFrameworkOpF fuel)
    | .withStmt ctx body =>
        exprHasFrameworkOpF fuel ctx || body.any (stmtHasFrameworkOpF fuel)
    | .ret e => exprHasFrameworkOpF fuel e
    | .magic _ => false

/-- A statement creates the distributed client: an assignment whose value
is a `Client(...)` call. -/
def stmtCreatesClient : PyStmt → Bool
  | .assign _ (.call "Client" _) => true
  | _ => false

/-- A statement imports the demonstrated framework: an import of `dask`,
a `dask.*` subpackage, or the `distributed` package. -/
def stmtImportsFramework : PyStmt → Bool
  | .imprt m _ => rootOf m == "dask" || rootOf m == "distributed"
  | .importFrom m _ => rootOf m == "dask" || rootOf m == "distributed"
  | _ => false

/-- A notebook imports the demonstrated framework somewhere. -/
def notebookImportsFramework (nb : Notebook) : Bool :=
  nb.code.any stmtImportsFramework

/-- A notebook creates a distributed client somewhere. -/
def notebookCreatesClient (nb : Notebook) : Bool :=
  nb.code.any stmtCreatesClient

/-- Scanning the statements in order, the client is created before the
first demonstrated framework operation (true when the list ends with
neither). -/
def clientBeforeFrameworkOps : List PyStmt → Bool
  | [] => true
  | s :: rest =>
    if stmtCreatesClient s then true
    else if stmtHasFrameworkOpF astFuel s then false
    else clientBeforeFrameworkOps rest

/-- Entries `(key, numeric value)` passed to `dask.config.set` in
top-level expression statements of a notebook. -/
def configSetEntries (stmts : List PyStmt) : List (String × Int) :=
  (stmts.map fun s =>
    match s with
    | .exprStmt (.call "dask.config.set" [.dictLit entries]) =>
        entries.filterMap fun p =>
          match p.2 with
          | .num n => some (p.1, n)
          | _ => none
    | _ => []).flatten

/-- The default task-suspiciousness threshold stated by the resilience
notebook's own prose ("a certain threshold (3 by default)"). -/
def statedDefaultAllowedFailures : Nat := 3

/-! ## The resilience notebook's runtime behavior

`multiply_by_two` and `kill_a_worker` from `resilience.ipynb`, as Lean
functions.  Worker processes are identified by their pids; `random.choice`
is modelled by an arbitrary index reduced modulo the list length; the
`sleep` calls only spend time and are dropped. -/

/-- `multiply_by_two(x)` returns `2 * x` (after a simulated-work sleep). -/
def multiply_by_two (x : Nat) : Nat := 2 * x

/-- `non_preemptible_workers = all_current_workers[:2]`. -/
def non_preemptible_of (all_current_workers : List Nat) : List Nat :=
  all_current_workers.take 2

/-- The list comprehension inside `kill_a_worker`: pids of current
workers that are not marked non-preemptible. -/
def preemptible_workers (current nonPreemptible : List Nat) : List Nat :=
  current.filter fun w => !(nonPreemptible.contains w)

/-- `kill_a_worker()`: if any preemptible worker exists, send signal 15
to a randomly chosen one (returned as `some (pid, signal)`); otherwise do
nothing (`none`). -/
def kill_a_worker (current nonPreemptible : List Nat) (choice : Nat) :
    Option (Nat × Nat) :=
  let pre := preemptible_workers current nonPreemptible
  if pre.isEmpty then none
  else some (pre.getD (choice % pre.length) 0, 15)

/-- The values the resilience workload distributes over the cluster:
`multiply_by_two` mapped over `range(N)`. -/
def resilienceWorkloadValues (N : Nat) : List Nat :=
  (List.range N).map multiply_by_two

/-- The blocking reduction of the workload: the sum of the doubled range. -/
def resilienceWorkloadSum (N : Nat) : Nat :=
  (resilienceWorkloadValues N).sum

/-! ## The machine-learning overview hyper-parameter grid

`param_grid` from the "Dask for Machine Learning" overview notebook. -/

/-- The eight candidate values of the `C` hyper-parameter. -/
def param_grid_C : List ℚ := [0.001, 0.01, 0.1, 0.5, 1.0, 2.0, 5.0, 10.0]

/-- The three candidate kernels. -/
def param_grid_kernel : List String := ["rbf", "poly", "sigmoid"]

/-- The two candidate shrinking settings. -/
def param_grid_shrinking : List Bool := [true, false]

/-- All hyper-parameter combinations of the grid, as `GridSearchCV`
enumerates them: the cartesian product of the three value lists. -/
def gridCombinations : List (ℚ × String × Bool) :=
  param_grid_C.flatMap fun c =>
    param_grid_kernel.flatMap fun k =>
      param_grid_shrinking.map fun s => (c, k, s)

/-- The model count asserted by the notebook's prose: "We fit 48 different
models, one for each hyper-parameter combination in param_grid". -/
def statedModelCount : Nat := 48

/-! ## Helper lemmas about `replaceAll` (the sed substitution) -/

theorem replaceAll_nil (pat repl : List Char) : replaceAll pat repl [] = [] := by
  simp [replaceAll]

theorem replaceAll_cons_pos (pat repl : List Char) (c : Char) (cs : List Char)
    (h : pat ≠ [] ∧ pat.isPrefixOf (c :: cs)) :
    replaceAll pat repl (c :: cs) = repl ++ replaceAll pat repl ((c :: cs).drop pat.length) := by
  rw [replaceAll.eq_def]
  exact if_pos h

theorem replaceAll_cons_neg (pat repl : List Char) (c : Char) (cs : List Char)
    (h : ¬ (pat ≠ [] ∧ pat.isPrefixOf (c :: cs))) :
    replaceAll pat repl (c :: cs) = c :: replaceAll pat repl cs := by
  rw [replaceAll.eq_def]
  exact if_neg h

/-- Text containing no occurrence of the pattern is left unchanged. -/
theorem replaceAll_of_not_infix (pat repl : List Char) :
    ∀ s : List Char, ¬ pat <:+: s → replaceAll pat repl s = s := by
  intro s
  induction s with
  | nil => intro _; simp [replaceAll]
  | cons c cs ih =>
    intro hinf
    rw [replaceAll_cons_neg, ih (fun h => hinf (List.infix_cons h))]
    rintro ⟨-, hpre⟩
    exact hinf (List.isPrefixOf_iff_prefix.mp hpre).isInfix

/-- An occurrence of the pattern at the head is replaced, and scanning
resumes after it. -/
theorem replaceAll_append_pat (pat repl t : List Char) (hne : pat ≠ []) :
    replaceAll pat repl (pat ++ t) = repl ++ replaceAll pat repl t := by
  cases hp : pat with
  | nil => exact absurd hp hne
  | cons p ps =>
    rw [← hp]
    have hcons : pat ++ t = p :: (ps ++ t) := by rw [hp]; rfl
    rw [hcons]
    rw [replaceAll_cons_pos pat repl p (ps ++ t)
      ⟨hne, List.isPrefixOf_iff_prefix.mpr (hcons ▸ List.prefix_append pat t)⟩]
    congr 1
    rw [← hcons, List.drop_left]

/-- For a border-free pattern, no occurrence can start strictly inside a
pattern-free chunk that is followed by the pattern. -/
theorem no_straddle (pat : List Char) (hb : BorderFree pat)
    (a t : List Char) (hane : a ≠ []) (ha : ¬ pat <:+: a)
    (hpre : pat <+: (a ++ pat ++ t)) : False := by
  by_cases hlen : pat.length ≤ a.length
  · have happ : a <+: (a ++ pat ++ t) := by
      rw [List.append_assoc]; exact List.prefix_append a (pat ++ t)
    exact ha (List.prefix_of_prefix_length_le hpre happ hlen).isInfix
  · push_neg at hlen
    have hn1 : 1 ≤ a.length := by
      cases ha' : a with
      | nil => exact absurd ha' hane
      | cons x xs => simp [ha']
    have htake : pat = a ++ pat.take (pat.length - a.length) := by
      have h1 := List.prefix_iff_eq_take.mp hpre
      rw [List.append_assoc] at h1
      conv_lhs => rw [h1]
      rw [List.take_append_eq_append_take,
          List.take_of_length_le (le_of_lt hlen),
          List.take_append_of_le_length (by omega : pat.length - a.length ≤ pat.length)]
    have hdrop : pat.drop a.length = pat.take (pat.length - a.length) := by
      conv_lhs => rw [htake]
      rw [List.drop_left]
    exact hb (pat.length - a.length) (by omega) (by omega)
      (by rw [← hdrop]; congr 1; omega)

/-- A pattern-free chunk before an occurrence is copied verbatim and the
occurrence after it is replaced. -/
theorem replaceAll_chunk_append (pat repl : List Char) (hne : pat ≠ [])
    (hb : BorderFree pat) :
    ∀ (a t : List Char), ¬ pat <:+: a →
    replaceAll pat repl (a ++ pat ++ t) = a ++ repl ++ replaceAll pat repl t := by
  intro a
  induction a with
  | nil =>
    intro t _
    simpa using replaceAll_append_pat pat repl t hne
  | cons ch a' ih =>
    intro t ha
    have hcons : (ch :: a') ++ pat ++ t = ch :: (a' ++ pat ++ t) := by simp
    rw [hcons]
    rw [replaceAll_cons_neg pat repl ch (a' ++ pat ++ t) ?hneg]
    case hneg =>
      rintro ⟨-, hpre⟩
      exact no_straddle pat hb (ch :: a') t (by simp) ha
        (hcons ▸ List.isPrefixOf_iff_prefix.mp hpre)
    rw [ih t (fun h => ha (List.infix_cons h))]
    simp

theorem intercalate_cons₂ (s a b : List Char) (l : List (List Char)) :
    List.intercalate s (a :: b :: l) = a ++ s ++ List.intercalate s (b :: l) := by
  simp [List.intercalate, List.intersperse_cons₂]

/-- Global replacement on text decomposed into pattern-free chunks
separated by occurrences of a border-free pattern: every occurrence
becomes the replacement and every chunk is kept verbatim. -/
theorem replaceAll_intercalate (pat repl : List Char) (hne : pat ≠ [])
    (hb : BorderFree pat) :
    ∀ chunks : List (List Char), (∀ ch ∈ chunks, ¬ pat <:+: ch) →
    replaceAll pat repl (List.intercalate pat chunks) =
      List.intercalate repl chunks := by
  intro chunks
  induction chunks with
  | nil => intro _; simp [List.intercalate, replaceAll_nil]
  | cons c rest ih =>
    intro hc
    cases rest with
    | nil =>
      simpa [List.intercalate] using
        replaceAll_of_not_infix pat repl c (hc c (by simp))
    | cons c' rest' =>
      rw [intercalate_cons₂, intercalate_cons₂, List.append_assoc,
          List.append_assoc, ← List.append_assoc c pat _]
      rw [replaceAll_chunk_append pat repl hne hb c _ (hc c (by simp))]
      rw [ih (fun ch h => hc ch (by simp [h]))]
      simp

/-- The concrete placeholder is border-free. -/
theorem dashPat_borderFree : BorderFree dashPat := by
  unfold BorderFree
  decide

/-- The concrete placeholder is nonempty. -/
theorem dashPat_ne_nil : dashPat ≠ [] := by decide

/-! ## Arithmetic of the resilience workload -/

/-- Doubling each of `0, ..., N-1` and summing gives `N*(N-1)`. -/
theorem resilienceWorkloadSum_eq (N : Nat) : resilienceWorkloadSum N = N * (N - 1) := by
  induction N with
  | zero => rfl
  | succ n ih =>
    unfold resilienceWorkloadSum resilienceWorkloadValues at ih ⊢
    rw [List.range_succ, List.map_append, List.sum_append, ih]
    simp only [List.map_cons, List.map_nil, List.sum_cons, List.sum_nil, multiply_by_two]
    cases n with
    | zero => rfl
    | succ m =>
      simp only [Nat.succ_sub_one]
      ring

/-! ## Claim theorems -/

set_option maxRecDepth 200000

/-- C1 counterexample: the claim says the CI workflow that executes
notebooks leaves no notebook unchecked, but
`applications/json-data-on-the-web.ipynb` is a notebook of the corpus and
is excluded from the CI pytest run by an explicit `--ignore`. -/
theorem ci_leaves_a_notebook_unchecked :
    "applications/json-data-on-the-web.ipynb" ∈ repoNotebookPaths
    ∧ "applications/json-data-on-the-web.ipynb" ∉ ciExecutedNotebooks := by
  decide

/-- C1 (amended): the CI workflow's "Execute Notebooks" step checks that
each notebook runs end-to-end without error for every notebook of the
corpus except the two explicitly `--ignore`d paths; of those two,
`applications/json-data-on-the-web.ipynb` is in the corpus and is
therefore left unchecked. -/
theorem ci_checks_every_non_ignored_notebook :
    ignoredNotebooks = ["machine-learning/torch-prediction.ipynb",
                        "applications/json-data-on-the-web.ipynb"]
    ∧ ciExecutedNotebooks =
        ["resilience.ipynb",
         "dataframes/01-data-access.ipynb",
         "machine-learning/scale-scikit-learn.ipynb",
         "machine-learning/glm.ipynb",
         "machine-learning/voting-classifier.ipynb",
         "applications/evolving-workflows.ipynb",
         "unnamed/part_000"]
    ∧ repoNotebookPaths.all
        (fun nb => ciExecutedNotebooks.contains nb || ignoredNotebooks.contains nb) = true := by
  decide

/-- C2 counterexample: no single CI workflow both builds the container
image and executes the notebooks as tests (the two workflows split these
roles). -/
theorem no_single_workflow_builds_and_tests :
    ciWorkflows.all
      (fun w => !(buildsContainerImage w && executesNotebooksAsTests w)) = true
    ∧ ciWorkflows.length = 2 := by
  decide

/-- C2 (amended): the repository has two CI workflows: "repo2docker CI"
builds the container image (and does not execute notebooks), and "Update
Dependencies" executes the repository's notebooks as tests with exactly
two notebooks explicitly excluded (and does not build an image). -/
theorem two_workflows_split_build_and_test :
    buildsContainerImage ciRepo2docker = true
    ∧ executesNotebooksAsTests ciRepo2docker = false
    ∧ buildsContainerImage ciUpdateDependencies = false
    ∧ executesNotebooksAsTests ciUpdateDependencies = true
    ∧ ignoredNotebooks.length = 2 := by
  decide

/-- C3: for every environment, command and workspace-file content (given
as its decomposition into placeholder-free chunks separated by the
placeholder), the startup script replaces every occurrence of
`DASK_DASHBOARD_URL` by `${JUPYTERHUB_BASE_URL}user/${JUPYTERHUB_USER}/proxy/8787`,
keeps every other character of the file unchanged, moves the file into
the Jupyter workspaces directory, and has done both before the notebook
server command is exec'd (at the pre-exec state nothing is launched and
the moved file already holds the substituted content). -/
theorem start_script_substitutes_before_launch
    (env : StartEnv) (cmd : List String) (chunks : List (List Char))
    (hchunks : ∀ ch ∈ chunks, ¬ dashPat <:+: ch) :
    (runStart env cmd (initialStartState (List.intercalate dashPat chunks))).defaultWorkspaceFile
        = some (List.intercalate (dashboardProxyURL env).toList chunks)
    ∧ (runStart env cmd (initialStartState (List.intercalate dashPat chunks))).binderWorkspaceFile
        = none
    ∧ (runStart env cmd (initialStartState (List.intercalate dashPat chunks))).launchedCommand
        = some cmd
    ∧ (preExecState env (initialStartState (List.intercalate dashPat chunks))).defaultWorkspaceFile
        = some (List.intercalate (dashboardProxyURL env).toList chunks)
    ∧ (preExecState env (initialStartState (List.intercalate dashPat chunks))).launchedCommand
        = none := by
  have hsub : replaceAll dashPat (dashboardProxyURL env).toList
      (List.intercalate dashPat chunks)
      = List.intercalate (dashboardProxyURL env).toList chunks :=
    replaceAll_intercalate dashPat _ dashPat_ne_nil dashPat_borderFree chunks hchunks
  refine ⟨?_, ?_, ?_, ?_, ?_⟩ <;>
    simp [runStart, preExecState, execStep, mvStep, mkdirStep, sedStep,
          initialStartState] <;>
    simpa [String.toList] using hsub

/-- C3 witness: the substitution theorem applied to a concrete
environment, command, and a two-chunk workspace file. -/
theorem start_script_substitutes_before_launch_witness :
    (runStart ⟨"/hub/", "alice"⟩ ["jupyter", "lab"]
        (initialStartState (List.intercalate dashPat ["pre ".toList, " post".toList]))).defaultWorkspaceFile
      = some (List.intercalate (dashboardProxyURL ⟨"/hub/", "alice"⟩).toList
          ["pre ".toList, " post".toList])
    ∧ (runStart ⟨"/hub/", "alice"⟩ ["jupyter", "lab"]
        (initialStartState (List.intercalate dashPat ["pre ".toList, " post".toList]))).binderWorkspaceFile
      = none
    ∧ (runStart ⟨"/hub/", "alice"⟩ ["jupyter", "lab"]
        (initialStartState (List.intercalate dashPat ["pre ".toList, " post".toList]))).launchedCommand
      = some ["jupyter", "lab"]
    ∧ (preExecState ⟨"/hub/", "alice"⟩
        (initialStartState (List.intercalate dashPat ["pre ".toList, " post".toList]))).defaultWorkspaceFile
      = some (List.intercalate (dashboardProxyURL ⟨"/hub/", "alice"⟩).toList
          ["pre ".toList, " post".toList])
    ∧ (preExecState ⟨"/hub/", "alice"⟩
        (initialStartState (List.intercalate dashPat ["pre ".toList, " post".toList]))).launchedCommand
      = none :=
  start_script_substitutes_before_launch ⟨"/hub/", "alice"⟩ ["jupyter", "lab"]
    ["pre ".toList, " post".toList] (by decide)

/-- C4: the resilience notebook's only `dask.config.set` entry sets
`distributed.scheduler.allowed-failures` to 100, raising it above the
default threshold of 3 stated by the notebook's own prose; no other
failure-related configuration is set. -/
theorem resilience_sets_single_failure_threshold :
    configSetEntries resilienceNotebook.code
      = [("distributed.scheduler.allowed-failures", 100)]
    ∧ statedDefaultAllowedFailures = 3
    ∧ (100 : Int) > (statedDefaultAllowedFailures : Int) := by
  decide

/-- C5 counterexample: the resilience notebook is not a linear sequence
of library calls: its final computation cell is a `while` polling loop
(and its kill helper contains an `if`). -/
theorem resilience_notebook_has_a_loop :
    notebookHasControlFlow resilienceNotebook = true
    ∧ (resilienceNotebook.code.any fun s =>
        match s with
        | .whileLoop _ _ => true
        | _ => false) = true := by
  decide

/-- C5 (amended): each notebook's code is a linear sequence of library
calls except exactly three: the resilience notebook (a `while` polling
loop and an `if`-guarded kill), the data-access notebook (an `if`-guarded
directory creation), and the evolving-workflows notebook (`for` loops
over completed futures). -/
theorem only_three_notebooks_have_control_flow :
    (repoNotebooks.filter notebookHasControlFlow).map Notebook.path
      = ["resilience.ipynb",
         "dataframes/01-data-access.ipynb",
         "applications/evolving-workflows.ipynb"] := by
  decide

/-- C6 counterexample: the json-data notebook invokes a demonstrated
framework operation (`db.read_text(...).take(3)`) before creating its
client, so client creation does not precede the demonstrated operations
in every notebook. -/
theorem json_notebook_calls_framework_before_client :
    clientBeforeFrameworkOps jsonDataNotebook.code = false
    ∧ notebookCreatesClient jsonDataNotebook = true := by
  decide

/-- C6 (amended): every notebook imports the external framework and
creates a client; in every notebook except
`applications/json-data-on-the-web.ipynb` the client is created before
the demonstrated framework operations, while that notebook performs one
bag-reading operation before creating its client. -/
theorem notebooks_import_framework_and_create_client :
    repoNotebooks.all
      (fun nb => notebookImportsFramework nb && notebookCreatesClient nb) = true
    ∧ (repoNotebooks.filter fun nb => !(clientBeforeFrameworkOps nb.code)).map Notebook.path
      = ["applications/json-data-on-the-web.ipynb"] := by
  decide

/-- C7 counterexample: the evolving-workflows notebook defines
coroutine-based control flow of its own: the async functions `f` and
`run_all`. -/
theorem evolving_workflows_defines_async :
    notebookDefinesAsync evolvingWorkflowsNotebook = true
    ∧ (evolvingWorkflowsNotebook.code.any fun s =>
        match s with
        | .asyncDefFun _ _ _ => true
        | _ => false) = true := by
  decide

/-- C7 (amended): no notebook except
`applications/evolving-workflows.ipynb` defines coroutine-based control
flow of its own; that one notebook defines async functions. -/
theorem only_evolving_workflows_defines_async :
    (repoNotebooks.filter notebookDefinesAsync).map Notebook.path
      = ["applications/evolving-workflows.ipynb"] := by
  decide

/-- C8: whatever the current cluster state (worker pid list) and random
choice, `kill_a_worker` only ever signals a pid outside the
non-preemptible list (the first two initially observed workers), always
with signal 15, and when no preemptible worker exists it sends no signal
at all. -/
theorem kill_a_worker_spares_non_preemptible
    (initialWorkers currentWorkers : List Nat) (choice p sig : Nat) :
    (kill_a_worker currentWorkers (non_preemptible_of initialWorkers) choice
        = some (p, sig) →
      p ∉ non_preemptible_of initialWorkers ∧ sig = 15)
    ∧ (preemptible_workers currentWorkers (non_preemptible_of initialWorkers) = [] →
      kill_a_worker currentWorkers (non_preemptible_of initialWorkers) choice = none) := by
  constructor
  · intro hk
    simp only [kill_a_worker] at hk
    split at hk
    · exact absurd hk (by simp)
    · rename_i hemp
      have hk' := Option.some.inj hk
      have hp : (preemptible_workers currentWorkers (non_preemptible_of initialWorkers)).getD
          (choice % (preemptible_workers currentWorkers (non_preemptible_of initialWorkers)).length) 0
          = p := congrArg Prod.fst hk'
      have hsig : sig = 15 := (congrArg Prod.snd hk').symm
      have hne : preemptible_workers currentWorkers (non_preemptible_of initialWorkers) ≠ [] := by
        intro hnil
        exact hemp (by rw [hnil]; rfl)
      have hlen : 0 < (preemptible_workers currentWorkers (non_preemptible_of initialWorkers)).length :=
        List.length_pos.mpr hne
      have hlt : choice % (preemptible_workers currentWorkers (non_preemptible_of initialWorkers)).length
          < (preemptible_workers currentWorkers (non_preemptible_of initialWorkers)).length :=
        Nat.mod_lt _ hlen
      have hmem : p ∈ preemptible_workers currentWorkers (non_preemptible_of initialWorkers) := by
        rw [List.getD_eq_getElem?_getD, List.getElem?_eq_getElem hlt] at hp
        simp only [Option.getD_some] at hp
        rw [← hp]
        exact List.getElem_mem hlt
      rw [preemptible_workers, List.mem_filter] at hmem
      refine ⟨?_, hsig⟩
      have := hmem.2
      simpa using this
  · intro hpre
    simp [kill_a_worker, hpre]

/-- C8 witness: with initial workers `[10, 11, 12, 13]` the pids 10 and
11 are non-preemptible; a kill picks pid 12 (signal 15), which is indeed
outside the non-preemptible list; and with only the two protected workers
left alive nothing is killed. -/
theorem kill_a_worker_spares_non_preemptible_witness :
    (12 ∉ non_preemptible_of [10, 11, 12, 13] ∧ 15 = 15)
    ∧ kill_a_worker [10, 11] (non_preemptible_of [10, 11, 12, 13]) 7 = none :=
  ⟨(kill_a_worker_spares_non_preemptible [10, 11, 12, 13] [10, 11, 12, 13] 0 12 15).1
      (by decide),
   (kill_a_worker_spares_non_preemptible [10, 11, 12, 13] [10, 11] 7 0 0).2
      (by decide)⟩

/-- C9: `multiply_by_two` returns `2*x` for every input; the workload —
`multiply_by_two` mapped over `range(N)` and summed — equals `N*(N-1)`
for every `N`, and equals that value however the mapped values are
partitioned for distributed summation (so the result is independent of
which preemptible workers are killed); with `N = 400` the expected result
is `400*399 = 159600`. -/
theorem resilience_workload_sums_to_N_times_N_minus_one (N : Nat) :
    (∀ x, multiply_by_two x = 2 * x)
    ∧ resilienceWorkloadSum N = N * (N - 1)
    ∧ (∀ parts : List (List Nat), parts.flatten = resilienceWorkloadValues N →
        (parts.map List.sum).sum = N * (N - 1))
    ∧ resilienceWorkloadSum 400 = 159600 := by
  refine ⟨fun x => rfl, resilienceWorkloadSum_eq N, ?_, ?_⟩
  · intro parts hparts
    have : parts.flatten.sum = N * (N - 1) := by
      rw [hparts]
      exact resilienceWorkloadSum_eq N
    rw [← List.sum_flatten]
    exact this
  · rw [resilienceWorkloadSum_eq 400]

/-- C9 witness: the theorem applied at `N = 3` with the concrete
partition `[[0, 2], [4]]` of the doubled range. -/
theorem resilience_workload_sum_witness :
    ([[0, 2], [4]].map List.sum).sum = 3 * (3 - 1) :=
  (resilience_workload_sums_to_N_times_N_minus_one 3).2.2.1 [[0, 2], [4]] (by decide)

/-- The eight C values are pairwise distinct rationals. -/
theorem param_grid_C_nodup : param_grid_C.Nodup := by
  norm_num [param_grid_C, List.nodup_cons]

/-- The custom triple product equals the nested binary list products. -/
theorem gridCombinations_eq_product :
    gridCombinations = param_grid_C ×ˢ (param_grid_kernel ×ˢ param_grid_shrinking) := by
  simp only [gridCombinations, SProd.sprod, List.product, List.map_flatMap,
        List.map_map, Function.comp_def]

/-- C10: the hyper-parameter grid of the machine-learning overview
notebook has 8 values of `C`, 3 kernels and 2 shrinking settings, and the
cartesian product enumerated by the grid search has exactly `8*3*2 = 48`
distinct combinations, matching the notebook's stated count of 48 fitted
models. -/
theorem param_grid_has_48_combinations :
    param_grid_C.length = 8
    ∧ param_grid_kernel.length = 3
    ∧ param_grid_shrinking.length = 2
    ∧ gridCombinations.length = 48
    ∧ gridCombinations.length = statedModelCount
    ∧ gridCombinations.Nodup := by
  refine ⟨rfl, rfl, rfl, rfl, rfl, ?_⟩
  rw [gridCombinations_eq_product]
  exact param_grid_C_nodup.product ((by decide : param_grid_kernel.Nodup).product
    (by decide : param_grid_shrinking.Nodup))
